import Mathlib

/-!
Verification of the Ventture credit-approval service.

Shallow embedding of the repository's decision pipeline in Lean 4:
machine floats are modelled as rationals (`ℚ`), Python `int` as `ℤ`,
fallible code returns `Option`, and the CSV history file is a small
state type (`CsvFile`).  Each definition mirrors one function of the
Python source; theorems at the end settle the specification claims.
-/

/-- A cell value of a history record, as it appears to pandas / JSON:
a number, the float artifacts NaN / +Infinity / -Infinity, a string, or
Python `None` (JSON null). -/
inductive Val where
  | num (q : ℚ)
  | nan
  | inf
  | ninf
  | str (s : String)
  | nulo
deriving DecidableEq, Repr

/-- A history row: a mapping from column name to cell value. -/
abbrev Registro := List (String × Val)

/-- State of the history CSV file on disk: absent, present but
unreadable/corrupted, or readable with the given rows. -/
inductive CsvFile where
  | ausente
  | corrompido
  | ok (rows : List Registro)
deriving DecidableEq, Repr

/-- A cell value is well formed when it is not a NaN/Infinity artifact. -/
def wfVal : Val → Bool
  | .nan => false
  | .inf => false
  | .ninf => false
  | _ => true

/-- A row is well formed when every cell is. -/
def wfRegistro (r : Registro) : Bool := r.all (fun kv => wfVal kv.2)

/-- `src/src/preprocess.py` / `src/credito_service.py` feature vector:
the eight columns of the DataFrame built by `criar_features_cliente`. -/
structure FeatureVec where
  renda_mensal : ℚ
  idade : ℤ
  valor_solicitado : ℚ
  valor_bem : ℚ
  relacao_garantia_credito : ℚ
  liquidez_score : ℚ
  renda_por_idade : ℚ
  garantia_ponderada : ℚ
deriving DecidableEq, Repr

/-- The dict `{"baixa": 1, "media": 2, "alta": 3}[liquidez]` of
`preprocess.py` line 4 / `credito_service.py` line 69: indexing with a
key outside the dict raises `KeyError`, modelled as `none`. -/
def liquidezScore (liquidez : String) : Option ℚ :=
  if liquidez = "baixa" then some 1
  else if liquidez = "media" then some 2
  else if liquidez = "alta" then some 3
  else none

/-- `criar_features_cliente` of `src/src/preprocess.py` (the identical
function appears in `src/credito_service.py`): derives the feature
vector; `none` models the `KeyError` raised on an invalid liquidity. -/
def criar_features_cliente (renda : ℚ) (idade : ℤ) (valor_solicitado : ℚ)
    (valor_bem : ℚ) (liquidez : String) : Option FeatureVec :=
  match liquidezScore liquidez with
  | none => none
  | some ls =>
    let relacao_garantia_credito := valor_bem / (valor_solicitado + 1)
    let renda_por_idade := renda / ((idade : ℚ) + 1)
    some { renda_mensal := renda
           idade := idade
           valor_solicitado := valor_solicitado
           valor_bem := valor_bem
           relacao_garantia_credito := relacao_garantia_credito
           liquidez_score := ls
           renda_por_idade := renda_por_idade
           garantia_ponderada := relacao_garantia_credito * ls }

namespace CreditoService2

/-- `criar_features_cliente` of `src/app/Old/credito_service2.py`:
uses `.get(liquidez, 2)`, so an unknown liquidity silently gets the
default score 2 instead of raising. -/
def liquidezScore2 (liquidez : String) : ℚ :=
  if liquidez = "baixa" then 1
  else if liquidez = "media" then 2
  else if liquidez = "alta" then 3
  else 2

/-- The `criar_features_cliente` variant of
`src/app/Old/credito_service2.py` (total: never fails). -/
def criar_features_cliente (renda : ℚ) (idade : ℤ) (valor_solicitado : ℚ)
    (valor_bem : ℚ) (liquidez : String) : FeatureVec :=
  let ls := liquidezScore2 liquidez
  let relacao_garantia_credito := valor_bem / (valor_solicitado + 1)
  let renda_por_idade := renda / ((idade : ℚ) + 1)
  { renda_mensal := renda
    idade := idade
    valor_solicitado := valor_solicitado
    valor_bem := valor_bem
    relacao_garantia_credito := relacao_garantia_credito
    liquidez_score := ls
    renda_por_idade := renda_por_idade
    garantia_ponderada := relacao_garantia_credito * ls }

/-- `salvar_historico` of `src/app/Old/credito_service2.py`: append to
the CSV; a corrupted existing file is caught (`except`) and overwritten
with just the new record.  Total: the append always succeeds. -/
def salvar_historico (st : CsvFile) (registro : Registro) : CsvFile :=
  match st with
  | .ausente => .ok [registro]
  | .corrompido => .ok [registro]
  | .ok rows => .ok (rows ++ [registro])

end CreditoService2

/-- `aprovado = int(prob >= 0.5)` of `src/credito_service.py` line 184,
read as the boolean Python branches on. -/
def aprovado (prob : ℚ) : Bool := decide ((1 : ℚ) / 2 ≤ prob)

/-- The history-write step inlined in `prever_credito` of
`src/credito_service.py` (lines 219-230): the `pd.read_csv` of an
existing file has no local handler, so a corrupted file raises and the
surrounding handler fails the whole request (`none`): nothing is
written. -/
def gravar_historico (st : CsvFile) (novo : Registro) : Option CsvFile :=
  match st with
  | .ausente => some (.ok [novo])
  | .corrompido => none
  | .ok rows => some (.ok (rows ++ [novo]))

namespace CreditoServiceOld

/-- `salvar_historico` of `src/app/Old/credito_service.py` (lines
37-43): reads an existing file with no handler, so corruption raises
(`none`); otherwise appends. -/
def salvar_historico (st : CsvFile) (registro : Registro) : Option CsvFile :=
  match st with
  | .ausente => some (.ok [registro])
  | .corrompido => none
  | .ok rows => some (.ok (rows ++ [registro]))

/-- `limpar_historico` of `src/app/Old/credito_service.py` (lines
114-119): `os.remove` if the file exists; total and idempotent. -/
def limpar_historico (_st : CsvFile) : CsvFile := .ausente

/-- The per-cell effect of `df.replace({np.nan: None})` in the
`historico` endpoint of `src/app/Old/credito_service.py`. -/
def normOld (v : Val) : Val :=
  match v with
  | .nan => .nulo
  | w => w

/-- `historico` endpoint of `src/app/Old/credito_service.py` (lines
100-111): `[]` when no file, NaN replaced by `None`, a read failure is
caught and reported as an error payload (`none`). -/
def historico (st : CsvFile) : Option (List Registro) :=
  match st with
  | .ausente => some []
  | .corrompido => none
  | .ok rows => some (rows.map (fun r => r.map (fun kv => (kv.1, normOld kv.2))))

end CreditoServiceOld

/-- The per-cell effect of
`historico.replace([np.inf, -np.inf], np.nan).fillna("")` in
`obter_historico` of `src/credito_service.py`: infinities become NaN,
then every NaN (and missing value) is filled with the empty string. -/
def normObter (v : Val) : Val :=
  match v with
  | .nan => .str ""
  | .inf => .str ""
  | .ninf => .str ""
  | .nulo => .str ""
  | w => w

/-- `obter_historico` of `src/credito_service.py` (lines 234-246):
`[]` when no file; otherwise the rows with NaN/±Infinity coerced to
`""`; a read failure is caught and reported as an error (`none`). -/
def obter_historico (st : CsvFile) : Option (List Registro) :=
  match st with
  | .ausente => some []
  | .corrompido => none
  | .ok rows => some (rows.map (fun r => r.map (fun kv => (kv.1, normObter kv.2))))

/-! ### Numeric string formatting

Python f-string formats used by the source, restricted to the values
the service produces.  `fmt2 q` models `f"{x:.2f}"` and agrees with
Python whenever `x * 100` is an integer (the only case the proofs
evaluate; Python's tie-breaking on inexact floats never fires there). -/

/-- Left-pad a two-digit decimal field. -/
def pad2 (n : ℕ) : String := if n < 10 then "0" ++ toString n else toString n

/-- Model of Python `f"{x:.2f}"`. -/
def fmt2 (q : ℚ) : String :=
  let c : ℤ := round (q * 100)
  let a := c.natAbs
  (if c < 0 then "-" else "") ++ toString (a / 100) ++ "." ++ pad2 (a % 100)

/-- Model of Python `f"{x:.2%}"`: the value times 100, two decimals, a
percent sign. -/
def fmtPercent (q : ℚ) : String := fmt2 (q * 100) ++ "%"

/-! ### Message composer (`src/credito_service.py`)

The Gemini client is modelled by two inputs: `clientOk` (was the
`client` global initialised, i.e. `GEMINI_API_KEY` configured and the
constructor did not raise) and `llm : Option String` (the outcome of
`client.models.generate_content(...).text`: `some t` on success,
`none` when the call raised any exception). -/

/-- `gerar_mensagem_aprovacao` of `src/credito_service.py`
(lines 87-123). -/
def gerar_mensagem_aprovacao (clientOk : Bool) (llm : Option String)
    (prob : ℚ) : String :=
  if !clientOk then
    "Crédito Aprovado com " ++ fmtPercent prob ++
      " de probabilidade! Entre em contato para finalizar (LLM Inativo)."
  else
    match llm with
    | some t => t.trim
    | none => "Erro: Não foi possível gerar a mensagem de aprovação personalizada."

/-- `gerar_mensagem_negacao` of `src/credito_service.py`
(lines 126-164). -/
def gerar_mensagem_negacao (clientOk : Bool) (llm : Option String)
    (prob : ℚ) : String :=
  if !clientOk then
    "Crédito Negado com " ++ fmtPercent prob ++
      " de probabilidade. Não foi possível atender a sua solicitação neste momento (LLM Inativo)."
  else
    match llm with
    | some t => t.trim
    | none => "Erro: Não foi possível gerar a mensagem de negativa personalizada."

/-! ### Offer engine (`src/main4.py`) -/

/-- `ProdutoCredito` of `src/main4.py`. -/
structure ProdutoCredito where
  id_produto : String
  nome : String
  taxa_base_anual : ℚ
  prazo_max_meses : ℤ
  limite_max_inicial : ℚ
  requisito_score_min : ℤ
  requisito_garantia : String
deriving DecidableEq, Repr

/-- `ClienteBase` of `src/main4.py`. -/
structure ClienteBase where
  id_cliente : String
  idade : ℤ
  score_interno_risco : ℤ
  tempo_relacionamento_anos : ℤ
  saldo_total_investimentos : ℚ
  possui_imovel_rural : Bool
  historico_inadimplencia : Bool
  necessidade_financiamento : ℚ
deriving DecidableEq, Repr

/-- `OfertaGerada` of `src/main4.py`. -/
structure OfertaGerada where
  status : String
  mensagem : String
  produto_ofertado : String
  taxa_final_anual : ℚ
  limite_aprovado : ℚ
  prazo_meses : ℤ
  motivo_recomendacao : String
deriving DecidableEq, Repr

/-- The eligibility test of the pre-selection loop in
`motor_de_decisao` (`src/main4.py` lines 136-141). -/
def elegivel (cliente : ClienteBase) (produto : ProdutoCredito) : Bool :=
  decide (produto.requisito_score_min ≤ cliente.score_interno_risco) &&
    (produto.requisito_garantia == "Nenhuma" ||
      (produto.requisito_garantia == "Imóvel Rural" && cliente.possui_imovel_rural))

/-- Python `min(produtos_elegiveis, key=lambda p: p.taxa_base_anual)`:
scan keeping the current minimum, replacing only on a strictly smaller
key, so the first product with the minimal rate wins. -/
def melhor_produto (best : ProdutoCredito) : List ProdutoCredito → ProdutoCredito
  | [] => best
  | p :: ps =>
    melhor_produto (if p.taxa_base_anual < best.taxa_base_anual then p else best) ps

/-- The approved-limit computation of `motor_de_decisao`
(`src/main4.py` lines 154-162), before the final `round(_, 2)`. -/
def limite_aprovado_calc (cliente : ClienteBase) (mp : ProdutoCredito) : ℚ :=
  let ajuste_risco := (cliente.score_interno_risco : ℚ) / 1000
  let limite_ajustado := mp.limite_max_inicial * ajuste_risco
  max 0 (min (cliente.necessidade_financiamento * 1.05)
             (min mp.limite_max_inicial limite_ajustado))

/-- The rate-and-rationale computation of `motor_de_decisao`
(`src/main4.py` lines 165-174), before the final `round(_, 2)`:
returns the final rate together with the `motivos` list. -/
def taxa_e_motivos (cliente : ClienteBase) (mp : ProdutoCredito) : ℚ × List String :=
  let taxa0 := mp.taxa_base_anual
  let motivos0 := ["Produto base: " ++ mp.nome ++ " (" ++ fmt2 taxa0 ++ "% a.a.)"]
  let tm1 :=
    if 10 ≤ cliente.tempo_relacionamento_anos then
      (taxa0 - 0.5, motivos0 ++ ["Bônus Fidelidade (-0.5 p.p.)"])
    else (taxa0, motivos0)
  if 200000 ≤ cliente.saldo_total_investimentos then
    (tm1.1 - 0.25, tm1.2 ++ ["Bônus Investimento (-0.25 p.p.)"])
  else tm1

/-- Python `int(x)`: truncation toward zero. -/
def truncInt (q : ℚ) : ℤ := if 0 ≤ q then ⌊q⌋ else ⌈q⌉

/-- The term computation of `motor_de_decisao` (`src/main4.py`
lines 177-178). -/
def prazo_calc (cliente : ClienteBase) (mp : ProdutoCredito) : ℤ :=
  max 24 (min (truncInt (cliente.necessidade_financiamento / 10000) * 12)
              mp.prazo_max_meses)

/-- Python `round(x, 2)` as used on the final rate and limit; agrees
with the source whenever `x * 100` is an integer (ties on inexact
binary floats aside, which the proofs never evaluate). -/
def round2 (q : ℚ) : ℚ := (round (q * 100) : ℚ) / 100

/-- `motor_de_decisao` of `src/main4.py` (lines 133-190). -/
def motor_de_decisao (cliente : ClienteBase)
    (produtos_catalogo : List ProdutoCredito) : OfertaGerada :=
  let produtos_elegiveis := produtos_catalogo.filter (elegivel cliente)
  match produtos_elegiveis with
  | [] =>
    { status := "NEGADO"
      mensagem := "Cliente não atende aos requisitos de Score e/ou Garantia para nossos produtos."
      produto_ofertado := ""
      taxa_final_anual := 0
      limite_aprovado := 0
      prazo_meses := 0
      motivo_recomendacao := "Baixo Score ou falta de garantias exigidas." }
  | p :: ps =>
    let mp := melhor_produto p ps
    let tm := taxa_e_motivos cliente mp
    { status := "APROVADO"
      mensagem := "Oferta otimizada gerada com sucesso."
      produto_ofertado := mp.nome
      taxa_final_anual := round2 tm.1
      limite_aprovado := round2 (limite_aprovado_calc cliente mp)
      prazo_meses := prazo_calc cliente mp
      motivo_recomendacao := String.intercalate " | " tm.2 }

/-! ### Substring search (used to state "the message contains the
formatted probability") -/

/-- Does the first character list start with the second? -/
def startsWithL : List Char → List Char → Bool
  | _, [] => true
  | [], _ :: _ => false
  | a :: as, b :: bs => a == b && startsWithL as bs

/-- Does the second character list occur contiguously in the first? -/
def occursInL : List Char → List Char → Bool
  | [], sub => sub.isEmpty
  | a :: as, sub => startsWithL (a :: as) sub || occursInL as sub

/-- Does `sub` occur contiguously in `s`? -/
def strContains (s sub : String) : Bool := occursInL s.data sub.data

/-! ### Example catalog and clients used by witnesses and
counterexamples -/

/-- An example credit product (8.5% base rate, no collateral
required). -/
def produtoEx : ProdutoCredito :=
  { id_produto := "P1", nome := "Credito Rural", taxa_base_anual := 8.5
    prazo_max_meses := 60, limite_max_inicial := 100000
    requisito_score_min := 0, requisito_garantia := "Nenhuma" }

/-- An example high-score client at both bonus boundaries (10 years of
relationship, R$200000 invested). -/
def clienteEx : ClienteBase :=
  { id_cliente := "C1", idade := 40, score_interno_risco := 800
    tempo_relacionamento_anos := 10, saldo_total_investimentos := 200000
    possui_imovel_rural := true, historico_inadimplencia := false
    necessidade_financiamento := 50000 }

/-- An example client whose financing need is negative. -/
def clienteNeg : ClienteBase :=
  { id_cliente := "C2", idade := 40, score_interno_risco := 1000
    tempo_relacionamento_anos := 0, saldo_total_investimentos := 0
    possui_imovel_rural := true, historico_inadimplencia := false
    necessidade_financiamento := -100 }

/-- An example low-score client (score 100). -/
def clienteBaixo : ClienteBase :=
  { id_cliente := "C3", idade := 25, score_interno_risco := 100
    tempo_relacionamento_anos := 15, saldo_total_investimentos := 500000
    possui_imovel_rural := true, historico_inadimplencia := false
    necessidade_financiamento := 30000 }

/-- An example product demanding score 500. -/
def produtoExigente : ProdutoCredito :=
  { id_produto := "P2", nome := "Credito Premium", taxa_base_anual := 7.5
    prazo_max_meses := 48, limite_max_inicial := 500000
    requisito_score_min := 500, requisito_garantia := "Nenhuma" }

/-! ### Helper lemmas -/

theorem startsWithL_append (sub rest : List Char) :
    startsWithL (sub ++ rest) sub = true := by
  induction sub with
  | nil => cases rest <;> rfl
  | cons a as ih => simp [startsWithL, ih]

theorem occursInL_append (pre mid rest : List Char) :
    occursInL (pre ++ (mid ++ rest)) mid = true := by
  induction pre with
  | nil =>
    cases mid with
    | nil => cases rest <;> simp [occursInL, startsWithL, List.isEmpty]
    | cons m ms =>
      have h := startsWithL_append (m :: ms) rest
      simp only [List.nil_append, List.cons_append] at h ⊢
      simp [occursInL, h]
  | cons a as ih =>
    simp [occursInL, List.cons_append, ih]

theorem strContains_append (pre mid post : String) :
    strContains (pre ++ (mid ++ post)) mid = true := by
  unfold strContains
  rw [String.data_append, String.data_append]
  exact occursInL_append pre.data mid.data post.data

theorem append_ne_empty (s t : String) (h : s.length ≠ 0) : s ++ t ≠ "" := by
  intro he
  apply h
  have hl := congrArg String.length he
  rw [String.length_append] at hl
  have h0 : ("" : String).length = 0 := rfl
  rw [h0] at hl
  omega

theorem round2_eq_self (q : ℚ) (z : ℤ) (hz : q * 100 = (z : ℚ)) : round2 q = q := by
  unfold round2
  rw [hz, round_intCast, div_eq_iff (by norm_num : (100 : ℚ) ≠ 0)]
  exact hz.symm

theorem motor_eq_negado (cliente : ClienteBase) (catalogo : List ProdutoCredito)
    (helig : catalogo.filter (elegivel cliente) = []) :
    motor_de_decisao cliente catalogo =
      { status := "NEGADO"
        mensagem := "Cliente não atende aos requisitos de Score e/ou Garantia para nossos produtos."
        produto_ofertado := ""
        taxa_final_anual := 0
        limite_aprovado := 0
        prazo_meses := 0
        motivo_recomendacao := "Baixo Score ou falta de garantias exigidas." } := by
  unfold motor_de_decisao
  rw [helig]

theorem motor_eq_aprovado (cliente : ClienteBase) (catalogo : List ProdutoCredito)
    (p : ProdutoCredito) (ps : List ProdutoCredito)
    (helig : catalogo.filter (elegivel cliente) = p :: ps) :
    motor_de_decisao cliente catalogo =
      { status := "APROVADO"
        mensagem := "Oferta otimizada gerada com sucesso."
        produto_ofertado := (melhor_produto p ps).nome
        taxa_final_anual := round2 (taxa_e_motivos cliente (melhor_produto p ps)).1
        limite_aprovado := round2 (limite_aprovado_calc cliente (melhor_produto p ps))
        prazo_meses := prazo_calc cliente (melhor_produto p ps)
        motivo_recomendacao :=
          String.intercalate " | " (taxa_e_motivos cliente (melhor_produto p ps)).2 } := by
  unfold motor_de_decisao
  rw [helig]

theorem taxa_e_motivos_eq (cliente : ClienteBase) (mp : ProdutoCredito) :
    taxa_e_motivos cliente mp =
      (mp.taxa_base_anual
         - (if 10 ≤ cliente.tempo_relacionamento_anos then 0.5 else 0)
         - (if 200000 ≤ cliente.saldo_total_investimentos then 0.25 else 0),
       ["Produto base: " ++ mp.nome ++ " (" ++ fmt2 mp.taxa_base_anual ++ "% a.a.)"]
         ++ (if 10 ≤ cliente.tempo_relacionamento_anos then ["Bônus Fidelidade (-0.5 p.p.)"] else [])
         ++ (if 200000 ≤ cliente.saldo_total_investimentos then ["Bônus Investimento (-0.25 p.p.)"] else [])) := by
  unfold taxa_e_motivos
  by_cases h1 : 10 ≤ cliente.tempo_relacionamento_anos <;>
    by_cases h2 : 200000 ≤ cliente.saldo_total_investimentos <;>
      simp [h1, h2]

theorem wfVal_normObter (v : Val) : wfVal (normObter v) = true := by
  cases v <;> rfl

theorem normOld_of_wf (v : Val) (h : wfVal v = true) :
    CreditoServiceOld.normOld v = v := by
  cases v <;> first | rfl | exact absurd h (by simp [wfVal])

/-! ## Claims -/

/-- C1: for every probability `p ∈ [0,1]` produced by scoring, the
decision of `prever_credito` (`aprovado = int(prob >= 0.5)`) approves
iff `p ≥ 0.5`, and the boundary `p = 0.5` approves, not denies. -/
theorem C1_limiar_aprovacao (p : ℚ) (h0 : 0 ≤ p) (h1 : p ≤ 1) :
    (aprovado p = true ↔ (1 : ℚ) / 2 ≤ p) ∧ aprovado (1 / 2) = true := by
  constructor
  · simp [aprovado]
  · norm_num [aprovado]

/-- Witness for C1 at the boundary `p = 0.5`. -/
theorem C1_limiar_aprovacao_witness :
    (0 : ℚ) ≤ 1 / 2 ∧ (1 : ℚ) / 2 ≤ 1 ∧
      ((aprovado (1 / 2) = true ↔ (1 : ℚ) / 2 ≤ 1 / 2) ∧ aprovado (1 / 2) = true) :=
  ⟨by norm_num, by norm_num, C1_limiar_aprovacao (1 / 2) (by norm_num) (by norm_num)⟩

/-- C2: for a valid liquidity, `criar_features_cliente` succeeds and
returns exactly the derived features of the spec —
`relacao_garantia_credito = valor_bem / (valor_solicitado + 1)`,
liquidity score 1/2/3 for baixa/media/alta,
`renda_por_idade = renda / (idade + 1)`, and
`garantia_ponderada = relacao · score`; for `valor_solicitado ≥ 0` and
`idade ≥ 0` both denominators are nonzero. -/
theorem C2_criar_features (renda : ℚ) (idade : ℤ) (valor_solicitado valor_bem : ℚ)
    (liquidez : String)
    (hl : liquidez = "baixa" ∨ liquidez = "media" ∨ liquidez = "alta")
    (hv : 0 ≤ valor_solicitado) (hi : 0 ≤ idade) :
    ∃ fv : FeatureVec,
      criar_features_cliente renda idade valor_solicitado valor_bem liquidez = some fv
      ∧ fv.relacao_garantia_credito = valor_bem / (valor_solicitado + 1)
      ∧ fv.liquidez_score =
          (if liquidez = "baixa" then 1 else if liquidez = "media" then 2 else 3)
      ∧ fv.renda_por_idade = renda / ((idade : ℚ) + 1)
      ∧ fv.garantia_ponderada = fv.relacao_garantia_credito * fv.liquidez_score
      ∧ valor_solicitado + 1 ≠ 0
      ∧ ((idade : ℚ) + 1) ≠ 0 := by
  have hv1 : valor_solicitado + 1 ≠ 0 := by positivity
  have hiq : (0 : ℚ) ≤ (idade : ℚ) := by exact_mod_cast hi
  have hi1 : ((idade : ℚ) + 1) ≠ 0 := by positivity
  rcases hl with h | h | h <;> subst h <;>
    exact ⟨_, rfl, rfl, by simp, rfl, rfl, hv1, hi1⟩

/-- Witness for C2 at the spec's own scenario: income 8000, age 35,
requested 50000, collateral 80000, liquidity "alta". -/
theorem C2_criar_features_witness :
    ∃ fv : FeatureVec,
      criar_features_cliente 8000 35 50000 80000 "alta" = some fv
      ∧ fv.relacao_garantia_credito = 80000 / (50000 + 1)
      ∧ fv.liquidez_score =
          (if ("alta" : String) = "baixa" then 1
           else if ("alta" : String) = "media" then 2 else 3)
      ∧ fv.renda_por_idade = 8000 / (((35 : ℤ) : ℚ) + 1)
      ∧ fv.garantia_ponderada = fv.relacao_garantia_credito * fv.liquidez_score
      ∧ (50000 : ℚ) + 1 ≠ 0
      ∧ (((35 : ℤ) : ℚ) + 1) ≠ 0 :=
  C2_criar_features 8000 35 50000 80000 "alta" (by simp) (by norm_num) (by norm_num)

/-- C5: history-store algebra of `src/app/Old/credito_service.py`:
appending a (well-formed) record to an absent store yields the
one-record store and reading it back yields exactly `[r]`; reading
after `clear` yields `[]`; and `clear` on an absent store is a total
idempotent no-op. -/
theorem C5_historico_algebra (r : Registro) (st : CsvFile) (hwf : wfRegistro r = true) :
    CreditoServiceOld.salvar_historico CsvFile.ausente r = some (CsvFile.ok [r])
    ∧ CreditoServiceOld.historico (CsvFile.ok [r]) = some [r]
    ∧ CreditoServiceOld.historico (CreditoServiceOld.limpar_historico st) = some []
    ∧ CreditoServiceOld.limpar_historico CsvFile.ausente = CsvFile.ausente := by
  refine ⟨rfl, ?_, rfl, rfl⟩
  have hrow : r.map (fun kv => (kv.1, CreditoServiceOld.normOld kv.2)) = r := by
    induction r with
    | nil => rfl
    | cons kv t ih =>
      simp only [wfRegistro, List.all_cons, Bool.and_eq_true] at hwf
      simp only [List.map_cons, normOld_of_wf kv.2 hwf.1, ih hwf.2]
  simp [CreditoServiceOld.historico, hrow]

/-- Witness for C5 at a concrete one-field record. -/
theorem C5_historico_algebra_witness :
    wfRegistro [("aprovado", Val.str "Sim")] = true ∧
      (CreditoServiceOld.salvar_historico CsvFile.ausente [("aprovado", Val.str "Sim")] =
          some (CsvFile.ok [[("aprovado", Val.str "Sim")]])
        ∧ CreditoServiceOld.historico (CsvFile.ok [[("aprovado", Val.str "Sim")]]) =
            some [[("aprovado", Val.str "Sim")]]
        ∧ CreditoServiceOld.historico
            (CreditoServiceOld.limpar_historico (CsvFile.ok [])) = some []
        ∧ CreditoServiceOld.limpar_historico CsvFile.ausente = CsvFile.ausente) :=
  ⟨by decide, C5_historico_algebra [("aprovado", Val.str "Sim")] (CsvFile.ok []) (by decide)⟩

/-- C6 (counterexample): the claim says FeatureBuilder never silently
substitutes a default liquidity score, but the variant in
`src/app/Old/credito_service2.py` uses `.get(liquidez, 2)`: on the
invalid liquidity `"invalida"` its build succeeds with the silent
default score 2 (while the dict of `preprocess.py` raises). -/
theorem C6_default_silencioso :
    (CreditoService2.criar_features_cliente 1000 30 5000 10000 "invalida").liquidez_score = 2
    ∧ CreditoService2.liquidezScore2 "invalida" = 2
    ∧ liquidezScore "invalida" = none := by
  refine ⟨?_, ?_, rfl⟩ <;> rfl

/-- C6 (amended): the canonical `criar_features_cliente` of
`src/src/preprocess.py` / `src/credito_service.py` fails (KeyError,
modelled `none`) on every liquidity outside {baixa, media, alta} — no
silent default there; the `src/app/Old/credito_service2.py` variant
instead silently defaults the score to 2. -/
theorem C6_liquidez_invalida (renda : ℚ) (idade : ℤ)
    (valor_solicitado valor_bem : ℚ) (liquidez : String)
    (h1 : liquidez ≠ "baixa") (h2 : liquidez ≠ "media") (h3 : liquidez ≠ "alta") :
    criar_features_cliente renda idade valor_solicitado valor_bem liquidez = none
    ∧ (CreditoService2.criar_features_cliente renda idade valor_solicitado
        valor_bem liquidez).liquidez_score = 2 := by
  constructor
  · unfold criar_features_cliente liquidezScore
    simp [h1, h2, h3]
  · unfold CreditoService2.criar_features_cliente CreditoService2.liquidezScore2
    simp [h1, h2, h3]

/-- Witness for C6 (amended) at the invalid liquidity `"invalida"`. -/
theorem C6_liquidez_invalida_witness :
    criar_features_cliente 1000 30 5000 10000 "invalida" = none
    ∧ (CreditoService2.criar_features_cliente 1000 30 5000 10000 "invalida").liquidez_score = 2 :=
  C6_liquidez_invalida 1000 30 5000 10000 "invalida"
    (by decide) (by decide) (by decide)

/-- C8 (counterexample): the claim says an append onto an unreadable
log still succeeds by overwriting with the new record, but the
history-write step of `prever_credito` in `src/credito_service.py`
(lines 219-230) has no handler around `pd.read_csv`: on a corrupted
log the request fails and the record is not written. -/
theorem C8_gravacao_falha :
    gravar_historico CsvFile.corrompido [("aprovado", Val.str "Sim")] = none := rfl

/-- C8 (amended): `salvar_historico` of
`src/app/Old/credito_service2.py` implements the documented policy —
a corrupted log is treated as empty and overwritten with just the new
record, so that append always succeeds; the inline history write of
`src/credito_service.py` instead fails the request on a corrupted log. -/
theorem C8_sobrescrita_corrompido (r : Registro) :
    CreditoService2.salvar_historico CsvFile.corrompido r = CsvFile.ok [r] := rfl

/-- C9 (counterexample): the claim says NaN/Infinity cells come back
normalized to a null/absent representation, but `obter_historico` of
`src/credito_service.py` (`.replace([inf,-inf], nan).fillna("")`)
turns them into the *empty string*, which is not the null value. -/
theorem C9_nan_vira_string :
    obter_historico (CsvFile.ok [[("prob_aprovacao", Val.nan), ("renda", Val.inf)]]) =
        some [[("prob_aprovacao", Val.str ""), ("renda", Val.str "")]]
    ∧ Val.str "" ≠ Val.nulo := by
  exact ⟨rfl, by decide⟩

/-- C9 (amended): `obter_historico` returns every stored row with each
NaN/±Infinity cell coerced to the empty string, and its output never
contains a NaN or Infinity value. -/
theorem C9_sem_nan_na_saida (rows : List Registro) :
    obter_historico (CsvFile.ok rows) =
        some (rows.map (fun r => r.map (fun kv => (kv.1, normObter kv.2))))
    ∧ (rows.map (fun r => r.map (fun kv => (kv.1, normObter kv.2)))).all wfRegistro = true
    ∧ obter_historico CsvFile.ausente = some [] := by
  refine ⟨rfl, ?_, rfl⟩
  rw [List.all_map, List.all_eq_true]
  intro r _
  show wfRegistro (r.map fun kv => (kv.1, normObter kv.2)) = true
  rw [wfRegistro, List.all_map, List.all_eq_true]
  intro kv _
  exact wfVal_normObter kv.2

/-- C3: `motor_de_decisao` treats a product as eligible iff the score
requirement is met and the product needs no collateral or needs a rural
property the client owns; and whenever no product is eligible — in
particular when the client's score is below every product's minimum —
the result is NEGADO, for every client and catalog. -/
theorem C3_elegibilidade_negado (cliente : ClienteBase) (catalogo : List ProdutoCredito) :
    (∀ produto : ProdutoCredito,
        elegivel cliente produto = true ↔
          (produto.requisito_score_min ≤ cliente.score_interno_risco ∧
            (produto.requisito_garantia = "Nenhuma" ∨
              (produto.requisito_garantia = "Imóvel Rural" ∧
                cliente.possui_imovel_rural = true))))
    ∧ (catalogo.filter (elegivel cliente) = [] →
        (motor_de_decisao cliente catalogo).status = "NEGADO")
    ∧ ((∀ produto ∈ catalogo,
          cliente.score_interno_risco < produto.requisito_score_min) →
        (motor_de_decisao cliente catalogo).status = "NEGADO") := by
  have hiff : ∀ produto : ProdutoCredito,
      elegivel cliente produto = true ↔
        (produto.requisito_score_min ≤ cliente.score_interno_risco ∧
          (produto.requisito_garantia = "Nenhuma" ∨
            (produto.requisito_garantia = "Imóvel Rural" ∧
              cliente.possui_imovel_rural = true))) := by
    intro produto
    simp [elegivel, and_assoc]
  have hneg : catalogo.filter (elegivel cliente) = [] →
      (motor_de_decisao cliente catalogo).status = "NEGADO" := by
    intro h
    rw [motor_eq_negado cliente catalogo h]
  refine ⟨hiff, hneg, ?_⟩
  intro hscore
  apply hneg
  rw [List.filter_eq_nil_iff]
  intro produto hp
  cases he : elegivel cliente produto with
  | false => decide
  | true => exact absurd ((hiff produto).mp he).1 (not_le.mpr (hscore produto hp))

/-- Witness for C3: a client with score 100 against a catalog whose
only product demands score 500 is denied. -/
theorem C3_elegibilidade_negado_witness :
    (motor_de_decisao clienteBaixo [produtoExigente]).status = "NEGADO" :=
  (C3_elegibilidade_negado clienteBaixo [produtoExigente]).2.2 (by decide)

/-- C4: for every approved offer of `motor_de_decisao`, the final
annual rate is the selected product's base rate minus 0.5 p.p. when
`tempo_relacionamento_anos ≥ 10` and a further 0.25 p.p. when
`saldo_total_investimentos ≥ 200000` — in particular both bonuses (a
total of 0.75 p.p.) at the boundary 10 years / 200000 — and the
rationale trail lists exactly the bonuses applied, in application
order.  (`hz` says the base rate is an exact multiple of 0.01, so the
final `round(_, 2)` is the identity, as for every float catalog rate
with at most two decimals.) -/
theorem C4_bonus_taxa (cliente : ClienteBase) (catalogo : List ProdutoCredito)
    (p : ProdutoCredito) (ps : List ProdutoCredito)
    (helig : catalogo.filter (elegivel cliente) = p :: ps)
    (hz : ∃ z : ℤ, (melhor_produto p ps).taxa_base_anual * 100 = (z : ℚ)) :
    (motor_de_decisao cliente catalogo).taxa_final_anual =
        (melhor_produto p ps).taxa_base_anual
          - (if 10 ≤ cliente.tempo_relacionamento_anos then 0.5 else 0)
          - (if 200000 ≤ cliente.saldo_total_investimentos then 0.25 else 0)
    ∧ (cliente.tempo_relacionamento_anos = 10 →
        cliente.saldo_total_investimentos = 200000 →
        (motor_de_decisao cliente catalogo).taxa_final_anual =
          (melhor_produto p ps).taxa_base_anual - 0.75)
    ∧ (motor_de_decisao cliente catalogo).motivo_recomendacao =
        String.intercalate " | "
          (["Produto base: " ++ (melhor_produto p ps).nome ++ " ("
              ++ fmt2 (melhor_produto p ps).taxa_base_anual ++ "% a.a.)"]
            ++ (if 10 ≤ cliente.tempo_relacionamento_anos then
                  ["Bônus Fidelidade (-0.5 p.p.)"] else [])
            ++ (if 200000 ≤ cliente.saldo_total_investimentos then
                  ["Bônus Investimento (-0.25 p.p.)"] else [])) := by
  obtain ⟨z, hz⟩ := hz
  have hT : (motor_de_decisao cliente catalogo).taxa_final_anual =
      round2 ((melhor_produto p ps).taxa_base_anual
        - (if 10 ≤ cliente.tempo_relacionamento_anos then 0.5 else 0)
        - (if 200000 ≤ cliente.saldo_total_investimentos then 0.25 else 0)) := by
    rw [motor_eq_aprovado cliente catalogo p ps helig, taxa_e_motivos_eq]
  have hM : (motor_de_decisao cliente catalogo).motivo_recomendacao =
      String.intercalate " | "
        (["Produto base: " ++ (melhor_produto p ps).nome ++ " ("
            ++ fmt2 (melhor_produto p ps).taxa_base_anual ++ "% a.a.)"]
          ++ (if 10 ≤ cliente.tempo_relacionamento_anos then
                ["Bônus Fidelidade (-0.5 p.p.)"] else [])
          ++ (if 200000 ≤ cliente.saldo_total_investimentos then
                ["Bônus Investimento (-0.25 p.p.)"] else [])) := by
    rw [motor_eq_aprovado cliente catalogo p ps helig, taxa_e_motivos_eq]
  have hround : round2 ((melhor_produto p ps).taxa_base_anual
        - (if 10 ≤ cliente.tempo_relacionamento_anos then 0.5 else 0)
        - (if 200000 ≤ cliente.saldo_total_investimentos then 0.25 else 0)) =
      (melhor_produto p ps).taxa_base_anual
        - (if 10 ≤ cliente.tempo_relacionamento_anos then 0.5 else 0)
        - (if 200000 ≤ cliente.saldo_total_investimentos then 0.25 else 0) := by
    by_cases h1 : 10 ≤ cliente.tempo_relacionamento_anos <;>
      by_cases h2 : 200000 ≤ cliente.saldo_total_investimentos
    · rw [if_pos h1, if_pos h2]
      exact round2_eq_self _ (z - 75) (by push_cast; linarith)
    · rw [if_pos h1, if_neg h2]
      exact round2_eq_self _ (z - 50) (by push_cast; linarith)
    · rw [if_neg h1, if_pos h2]
      exact round2_eq_self _ (z - 25) (by push_cast; linarith)
    · rw [if_neg h1, if_neg h2]
      exact round2_eq_self _ z (by push_cast; linarith)
  refine ⟨hT.trans hround, ?_, hM⟩
  intro e1 e2
  rw [hT.trans hround, if_pos (le_of_eq e1.symm), if_pos (le_of_eq e2.symm)]
  ring

/-- Witness for C4: the boundary client (10 years, R$200000) on the
single-product catalog with base rate 8.50% gets final rate 7.75% and
both bonus entries in the rationale. -/
theorem C4_bonus_taxa_witness :
    (motor_de_decisao clienteEx [produtoEx]).taxa_final_anual =
      produtoEx.taxa_base_anual - 0.75 :=
  (C4_bonus_taxa clienteEx [produtoEx] produtoEx [] rfl
      ⟨850, by norm_num [produtoEx, melhor_produto]⟩).2.1 rfl rfl

/-- C10 (counterexample): the claim's bound "never exceeds 1.05 ×
financingNeed" fails for an approved offer with a negative financing
need: the `max(0, …)` clamp lifts the limit to 0, which is strictly
greater than `1.05 × (-100)`. -/
theorem C10_necessidade_negativa :
    (motor_de_decisao clienteNeg [produtoEx]).status = "APROVADO"
    ∧ limite_aprovado_calc clienteNeg produtoEx = 0
    ∧ ¬ (limite_aprovado_calc clienteNeg produtoEx ≤
          clienteNeg.necessidade_financiamento * 1.05) := by
  refine ⟨rfl, ?_, ?_⟩
  · norm_num [limite_aprovado_calc, clienteNeg, produtoEx, min_def, max_def]
  · norm_num [limite_aprovado_calc, clienteNeg, produtoEx, min_def, max_def]

/-- C10 (amended): for every approved offer whose financing need and
selected product's `limite_max_inicial` are nonnegative, the approved
limit before the final rounding lies in
`[0, limite_max_inicial]` and never exceeds `1.05 ×` the financing
need; and the offer's `limite_aprovado` field is that value rounded to
2 decimals. -/
theorem C10_limites_aprovados (cliente : ClienteBase) (catalogo : List ProdutoCredito)
    (p : ProdutoCredito) (ps : List ProdutoCredito)
    (helig : catalogo.filter (elegivel cliente) = p :: ps)
    (hneed : 0 ≤ cliente.necessidade_financiamento)
    (hlim : 0 ≤ (melhor_produto p ps).limite_max_inicial) :
    (motor_de_decisao cliente catalogo).status = "APROVADO"
    ∧ 0 ≤ limite_aprovado_calc cliente (melhor_produto p ps)
    ∧ limite_aprovado_calc cliente (melhor_produto p ps) ≤
        (melhor_produto p ps).limite_max_inicial
    ∧ limite_aprovado_calc cliente (melhor_produto p ps) ≤
        cliente.necessidade_financiamento * 1.05
    ∧ (motor_de_decisao cliente catalogo).limite_aprovado =
        round2 (limite_aprovado_calc cliente (melhor_produto p ps)) := by
  have hM := motor_eq_aprovado cliente catalogo p ps helig
  refine ⟨by rw [hM], ?_, ?_, ?_, by rw [hM]⟩
  · simp only [limite_aprovado_calc]
    exact le_max_left 0 _
  · simp only [limite_aprovado_calc]
    exact max_le hlim ((min_le_right _ _).trans (min_le_left _ _))
  · simp only [limite_aprovado_calc]
    exact max_le (mul_nonneg hneed (by norm_num)) (min_le_left _ _)

/-- Witness for C10 (amended) at the example client (need 50000) and
product (limit 100000). -/
theorem C10_limites_aprovados_witness :
    (motor_de_decisao clienteEx [produtoEx]).status = "APROVADO"
    ∧ 0 ≤ limite_aprovado_calc clienteEx (melhor_produto produtoEx [])
    ∧ limite_aprovado_calc clienteEx (melhor_produto produtoEx []) ≤
        (melhor_produto produtoEx []).limite_max_inicial
    ∧ limite_aprovado_calc clienteEx (melhor_produto produtoEx []) ≤
        clienteEx.necessidade_financiamento * 1.05
    ∧ (motor_de_decisao clienteEx [produtoEx]).limite_aprovado =
        round2 (limite_aprovado_calc clienteEx (melhor_produto produtoEx [])) :=
  C10_limites_aprovados clienteEx [produtoEx] produtoEx [] rfl
    (by norm_num [clienteEx]) (by norm_num [melhor_produto, produtoEx])

/-- C7 (counterexample): the claim says that on *any* LLM failure the
fallback is built from the verdict and the probability formatted as a
percentage; but when the client is configured and the call fails,
`gerar_mensagem_aprovacao` returns a fixed error-text string that does
not contain the formatted probability (here `"62.00%"`). -/
theorem C7_falha_sem_percentual :
    gerar_mensagem_aprovacao true none (62 / 100) =
        "Erro: Não foi possível gerar a mensagem de aprovação personalizada."
    ∧ fmtPercent (62 / 100) = "62.00%"
    ∧ strContains
        "Erro: Não foi possível gerar a mensagem de aprovação personalizada."
        "62.00%" = false := by
  refine ⟨rfl, ?_, by decide⟩
  have h : round ((62 : ℚ) / 100 * 100 * 100) = 6200 := by norm_num
  simp only [fmtPercent, fmt2, pad2, h]
  decide

/-- C7 (amended): with the LLM capability unconfigured,
`gerar_mensagem_aprovacao` / `gerar_mensagem_negacao` return the
deterministic non-empty fallback containing the probability formatted
as a percentage, whatever the LLM outcome would have been; with the
capability configured and the call failing, they return a fixed
non-empty error-text message (which omits the probability).  All
branches are total: compose never raises. -/
theorem C7_fallback_mensagens (prob : ℚ) (llm : Option String) :
    gerar_mensagem_aprovacao false llm prob =
        "Crédito Aprovado com " ++ (fmtPercent prob ++
          " de probabilidade! Entre em contato para finalizar (LLM Inativo).")
    ∧ strContains (gerar_mensagem_aprovacao false llm prob) (fmtPercent prob) = true
    ∧ gerar_mensagem_aprovacao false llm prob ≠ ""
    ∧ gerar_mensagem_negacao false llm prob =
        "Crédito Negado com " ++ (fmtPercent prob ++
          " de probabilidade. Não foi possível atender a sua solicitação neste momento (LLM Inativo).")
    ∧ strContains (gerar_mensagem_negacao false llm prob) (fmtPercent prob) = true
    ∧ gerar_mensagem_negacao false llm prob ≠ ""
    ∧ gerar_mensagem_aprovacao true none prob =
        "Erro: Não foi possível gerar a mensagem de aprovação personalizada."
    ∧ gerar_mensagem_negacao true none prob =
        "Erro: Não foi possível gerar a mensagem de negativa personalizada." := by
  have ha : gerar_mensagem_aprovacao false llm prob =
      "Crédito Aprovado com " ++ (fmtPercent prob ++
        " de probabilidade! Entre em contato para finalizar (LLM Inativo).") :=
    String.append_assoc _ _ _
  have hn : gerar_mensagem_negacao false llm prob =
      "Crédito Negado com " ++ (fmtPercent prob ++
        " de probabilidade. Não foi possível atender a sua solicitação neste momento (LLM Inativo).") :=
    String.append_assoc _ _ _
  refine ⟨ha, ?_, ?_, hn, ?_, ?_, rfl, rfl⟩
  · rw [ha]; exact strContains_append _ _ _
  · rw [ha]; exact append_ne_empty _ _ (by decide)
  · rw [hn]; exact strContains_append _ _ _
  · rw [hn]; exact append_ne_empty _ _ (by decide)
